import Mathlib

/-!
Verification of the OBS Open Golf Coach bridge pipeline.

This file gives a shallow embedding of the bridge's core data processing:
the JSON value model, the OpenAPI-to-OGC protocol conversion
(`convert_openapi_to_ogc` in obs_open_golf_coach.py and, textually
identically, in ogc_openapi_service.py), the shot processing functions of
each of the three pipeline variants, nested-path resolution
(`get_nested_value`), data-point formatting (`format_data_point`), the
pipeline queue (Python `queue.Queue`), the OBS sink manager
(`create_text_source` / `update_text_source`), and the two frame decoders
used on inbound TCP connections.

External collaborators (the `opengolfcoach` enrichment library / server
and the OBS WebSocket endpoint) are modelled as oracles; Python standard
library behaviour (dict lookup, `str.split`, `str.strip`, substring
membership, `json.loads`, string formatting) is modelled by executable
Lean functions restricted to the value universe the program actually
handles.
-/

/-- Model of a parsed JSON value (the result of Python `json.loads`).
Numbers are modelled as rationals; Python objects are association lists in
insertion order (Python dicts produced by this program never carry
duplicate keys). `Json.null` doubles as Python `None`. -/
inductive Json where
  | null
  | bool (b : Bool)
  | num (q : ℚ)
  | str (s : String)
  | arr (xs : List Json)
  | obj (kvs : List (String × Json))

namespace Json

/-- Boolean equality on JSON values (structural). -/
def beq : Json → Json → Bool
  | .null, .null => true
  | .bool a, .bool b => a == b
  | .num a, .num b => a == b
  | .str a, .str b => a == b
  | .arr xs, .arr ys => beqL xs ys
  | .obj xs, .obj ys => beqKV xs ys
  | _, _ => false
where
  beqL : List Json → List Json → Bool
    | [], [] => true
    | x :: xs, y :: ys => beq x y && beqL xs ys
    | _, _ => false
  beqKV : List (String × Json) → List (String × Json) → Bool
    | [], [] => true
    | (k, v) :: xs, (l, w) :: ys => k == l && beq v w && beqKV xs ys
    | _, _ => false

theorem eq_of_beq : ∀ {a b : Json}, beq a b = true → a = b
  | .null, .null, _ => rfl
  | .bool a, .bool b, h => by simp [beq] at h; simp [h]
  | .num a, .num b, h => by simp [beq] at h; simp [h]
  | .str a, .str b, h => by simp [beq] at h; simp [h]
  | .arr (x :: xs), .arr (y :: ys), h => by
      simp [beq, beq.beqL] at h
      have h1 := eq_of_beq h.1
      have h2 := eq_of_beq (a := Json.arr xs) (b := Json.arr ys) (by simp [beq]; exact h.2)
      simp at h2
      simp [h1, h2]
  | .arr [], .arr [], _ => rfl
  | .obj ((k, v) :: xs), .obj ((l, w) :: ys), h => by
      simp [beq, beq.beqKV] at h
      have h1 := eq_of_beq h.1.2
      have h2 := eq_of_beq (a := Json.obj xs) (b := Json.obj ys) (by simp [beq]; exact h.2)
      simp at h2
      simp [h.1.1, h1, h2]
  | .obj [], .obj [], _ => rfl

theorem beq_rfl : ∀ a : Json, beq a a = true
  | .null => rfl
  | .bool a => by simp [beq]
  | .num a => by simp [beq]
  | .str a => by simp [beq]
  | .arr [] => rfl
  | .arr (x :: xs) => by
      have h1 := beq_rfl x
      have h2 := beq_rfl (Json.arr xs)
      simp [beq] at h2 ⊢
      simp [beq.beqL, h1, h2]
  | .obj [] => rfl
  | .obj ((k, v) :: xs) => by
      have h1 := beq_rfl v
      have h2 := beq_rfl (Json.obj xs)
      simp [beq] at h2 ⊢
      simp [beq.beqKV, h1, h2]

instance : DecidableEq Json := fun a b =>
  decidable_of_iff (beq a b = true) ⟨eq_of_beq, fun h => h ▸ beq_rfl a⟩

end Json

instance {ε α : Type} [DecidableEq ε] [DecidableEq α] : DecidableEq (Except ε α) := fun a b =>
  match a, b with
  | .ok x, .ok y =>
    if h : x = y then isTrue (congrArg Except.ok h)
    else isFalse (fun hc => h (Except.ok.inj hc))
  | .error x, .error y =>
    if h : x = y then isTrue (congrArg Except.error h)
    else isFalse (fun hc => h (Except.error.inj hc))
  | .ok _, .error _ => isFalse (fun hc => Except.noConfusion hc)
  | .error _, .ok _ => isFalse (fun hc => Except.noConfusion hc)

/-- Python dict key lookup (`d[k]` / `d.get(k)`), for dicts represented as
association lists in insertion order. Dicts built by this program have
unique keys, so first-match lookup agrees with Python dict semantics. -/
def objGet : List (String × Json) → String → Option Json
  | [], _ => none
  | (k', v) :: rest, k => if k' = k then some v else objGet rest k

/-- Python `k in d` for a dict. -/
def pyHasKey (kvs : List (String × Json)) (k : String) : Bool :=
  (objGet kvs k).isSome

/-- Python truthiness (`if x:`) for parsed-JSON values. -/
def pyTruthy : Json → Bool
  | .null => false
  | .bool b => b
  | .num q => if q = 0 then false else true
  | .str s => if s = "" then false else true
  | .arr xs => if xs = [] then false else true
  | .obj kvs => if kvs = [] then false else true

/-- Python numeric coercion used by arithmetic: `int`/`float` directly,
`bool` as 0/1; anything else raises `TypeError` (modelled as `none`). -/
def pyAsNum : Json → Option ℚ
  | .num q => some q
  | .bool b => some (if b then 1 else 0)
  | _ => none

/-- The pattern `v = d.get(k)` followed by `if v is not None:`:
yields the value only when the key is present and its value is not null. -/
def dictGetVal (kvs : List (String × Json)) (k : String) : Option Json :=
  match objGet kvs k with
  | some v => if v = Json.null then none else some v
  | none => none

/-- Decides whether `needle` occurs at the start of `hay`. -/
def chPre : List Char → List Char → Bool
  | [], _ => true
  | _ :: _, [] => false
  | a :: as, b :: bs => if a = b then chPre as bs else false

/-- Decides whether `needle` occurs as a contiguous run inside `hay`
(Python substring containment). -/
def chSub (needle : List Char) : List Char → Bool
  | [] => needle.isEmpty
  | b :: bs => chPre needle (b :: bs) || chSub needle bs

/-- Python `needle in hay` for strings. -/
def pyInStr (needle hay : String) : Bool := chSub needle.toList hay.toList

/-- Python `x in v` for a parsed-JSON container `v`: substring test on
strings, element membership on lists, key membership on dicts; a
`TypeError` on any other value (modelled as `none`). -/
def pyIn (x : String) : Json → Option Bool
  | .str s => some (pyInStr x s)
  | .arr xs => some (xs.any fun j => j = Json.str x)
  | .obj kvs => some (pyHasKey kvs x)
  | _ => none

/-- Miles-per-hour to meters-per-second factor `0.44704` from
`convert_openapi_to_ogc` (exact as a rational). -/
def MPH_TO_MPS : ℚ := 44704 / 100000

/-- Step `ball_data = openapi_data.get("BallData", \x7b\x7d)` of
`convert_openapi_to_ogc`: missing key defaults to the empty dict; a
present non-dict value makes the subsequent `.get` calls raise
(`.error`). -/
def ballDataOf (openapi : List (String × Json)) : Except Unit (List (String × Json)) :=
  match objGet openapi "BallData" with
  | none => .ok []
  | some (.obj kvs) => .ok kvs
  | some _ => .error ()

/-- Step `units = openapi_data.get("Units", "Yards")`. -/
def unitsOf (openapi : List (String × Json)) : Json :=
  (objGet openapi "Units").getD (Json.str "Yards")

/-- Step `is_imperial = "Yards" in units or "MPH" in units` with Python
short-circuit evaluation; `in` on a non-container raises (`.error`). -/
def isImperialOf (openapi : List (String × Json)) : Except Unit Bool :=
  match pyIn "Yards" (unitsOf openapi) with
  | none => .error ()
  | some true => .ok true
  | some false =>
    match pyIn "MPH" (unitsOf openapi) with
    | none => .error ()
    | some b => .ok b

/-- The `Speed` branch of `convert_openapi_to_ogc`: absent (or null)
speed contributes nothing; with an imperial units hint the speed is
multiplied by 0.44704 (raising on non-numeric speed), otherwise it is
stored verbatim. -/
def speedField (isImp : Bool) (ball : List (String × Json)) :
    Except Unit (List (String × Json)) :=
  match dictGetVal ball "Speed" with
  | none => .ok []
  | some v =>
    if isImp then
      match pyAsNum v with
      | some q => .ok [("ball_speed_meters_per_second", Json.num (q * MPH_TO_MPS))]
      | none => .error ()
    else .ok [("ball_speed_meters_per_second", v)]

/-- A verbatim-copy branch of `convert_openapi_to_ogc` (`VLA`, `HLA`,
`TotalSpin`, `SpinAxis`, `BackSpin`, `SideSpin`): present non-null values
are copied unchanged under the canonical name. -/
def copyField (src dst : String) (ball : List (String × Json)) : List (String × Json) :=
  match dictGetVal ball src with
  | none => []
  | some v => [(dst, v)]

/-- Model of `convert_openapi_to_ogc` (obs_open_golf_coach.py lines
86-130; the copy in ogc_openapi_service.py lines 63-111 is textually
identical): maps the OpenAPI wire record to the canonical OGC input
dict, in the source's insertion order. `.error` models a raised Python
exception (non-dict `BallData`, non-container `Units`, or non-numeric
imperial `Speed`). -/
def convert_openapi_to_ogc (openapi : List (String × Json)) :
    Except Unit (List (String × Json)) := do
  let ball ← ballDataOf openapi
  let isImp ← isImperialOf openapi
  let sp ← speedField isImp ball
  pure (sp ++ copyField "VLA" "vertical_launch_angle_degrees" ball
           ++ copyField "HLA" "horizontal_launch_angle_degrees" ball
           ++ copyField "TotalSpin" "total_spin_rpm" ball
           ++ copyField "SpinAxis" "spin_axis_degrees" ball
           ++ copyField "BackSpin" "backspin_rpm" ball
           ++ copyField "SideSpin" "sidespin_rpm" ball)

example : convert_openapi_to_ogc [("BallData", Json.obj [("Speed", Json.num 100)])] =
    .ok [("ball_speed_meters_per_second", Json.num (100 * MPH_TO_MPS))] := rfl

example : convert_openapi_to_ogc [("BallData", Json.obj [])] = .ok [] := by decide

/-- Model of `OGCClient.process_shot` (ogc_bridge.py lines 148-199):
both the in-process path (`_process_local`) and the TCP path
(`_process_tcp`) return the enriched record, or `None` on any failure
(library exception, socket timeout, refused connection, or JSON decode
failure). The external Open Golf Coach behaviour is abstracted as an
oracle `enrich`; `enrich s = none` covers every failure mode. -/
def OGCClient.process_shot (enrich : Json → Option Json) (shot_data : Json) : Option Json :=
  enrich shot_data

/-- Model of `OGCBridge._process_shot` (ogc_bridge.py lines 501-531),
restricted to the data it passes downstream: the record with which
`update_all_sources` is called (and which is stored in `last_shot`).
A record already containing `open_golf_coach` passes through; otherwise
the enrichment result is used, falling back to the raw record when the
result is falsy (`if not enriched_data`). -/
def OGCBridge.process_shot_data (enrich : Json → Option Json)
    (raw_data : List (String × Json)) : Json :=
  if pyHasKey raw_data "open_golf_coach" then Json.obj raw_data
  else
    match OGCClient.process_shot enrich (Json.obj raw_data) with
    | some e => if pyTruthy e then e else Json.obj raw_data
    | none => Json.obj raw_data

/-- Shared tail of the plugin's `process_shot` (obs_open_golf_coach.py
lines 144-159): empty input yields `None`; otherwise the enrichment
library is called, and on an exception (or with the library missing,
which behaves identically) the un-enriched input is returned. -/
def ObsPlugin.process_shot_calc (enrich : List (String × Json) → Option Json)
    (ogc_input : List (String × Json)) : Option Json :=
  if ogc_input.isEmpty then none
  else
    match enrich ogc_input with
    | some result => some result
    | none => some (Json.obj ogc_input)

/-- Model of `process_shot` in obs_open_golf_coach.py (lines 132-159):
records with `BallData` are converted first (conversion may raise,
modelled by `.error`); records already containing `open_golf_coach`
pass through; anything else is used as the OGC input directly. -/
def ObsPlugin.process_shot (enrich : List (String × Json) → Option Json)
    (openapi_data : List (String × Json)) : Except Unit (Option Json) := do
  if pyHasKey openapi_data "BallData" then
    let ogc_input ← convert_openapi_to_ogc openapi_data
    pure (ObsPlugin.process_shot_calc enrich ogc_input)
  else if pyHasKey openapi_data "open_golf_coach" then
    pure (some (Json.obj openapi_data))
  else
    pure (ObsPlugin.process_shot_calc enrich openapi_data)

/-- Model of `process_shot` in ogc_openapi_service.py (lines 113-131):
converts, returns `None` when the conversion result is empty, and —
unlike the plugin variant — also returns `None` when the enrichment
call raises, so a failed enrichment yields no record at all. -/
def OpenAPIService.process_shot (enrich : List (String × Json) → Option Json)
    (openapi_data : List (String × Json)) : Except Unit (Option Json) := do
  let ogc_input ← convert_openapi_to_ogc openapi_data
  if ogc_input.isEmpty then pure none
  else
    match enrich ogc_input with
    | some result => pure (some result)
    | none => pure none

/-- Model of the forwarding decision in
`OpenAPIServer._handle_client` (ogc_openapi_service.py lines 285-304):
the processed result is sent to the OBS plugin only when `process_shot`
returned a truthy value; `none` means the shot is dropped. -/
def OpenAPIService.handle_shot (enrich : List (String × Json) → Option Json)
    (openapi_data : List (String × Json)) : Except Unit (Option Json) := do
  let result ← OpenAPIService.process_shot enrich openapi_data
  match result with
  | some r => if pyTruthy r then pure (some r) else pure none
  | none => pure none

/-- Python `s.split(sep)` for a single-character separator: always yields
at least one piece, with empty pieces preserved. -/
def pySplit (sep : Char) : List Char → List (List Char)
  | [] => [[]]
  | c :: cs =>
    if c = sep then [] :: pySplit sep cs
    else
      match pySplit sep cs with
      | [] => [[c]]
      | p :: ps => (c :: p) :: ps

/-- The dot-separated segment list of a lookup path
(`keys = path.split('.')`). -/
def pathSegments (path : String) : List String :=
  (pySplit '.' path.toList).map String.mk

/-- The walk loop of `get_nested_value`: descend while the current node
is a dict containing the segment; otherwise `return None`
(`Json.null` models Python `None`). -/
def nestedWalk : Json → List String → Json
  | value, [] => value
  | .obj kvs, k :: ks =>
    match objGet kvs k with
    | some v => nestedWalk v ks
    | none => Json.null
  | _, _ :: _ => Json.null

/-- Model of `get_nested_value` (ogc_bridge.py lines 101-110; identical
copies in ogc_obs_service.py and obs_open_golf_coach.py): dot-path
lookup in a nested record, `None` on any failure. -/
def get_nested_value (data : Json) (path : String) : Json :=
  nestedWalk data (pathSegments path)

/-- Specification-side resolution relation, written from the spec's
words: the value reached from `d` by following the segments, defined
only when every segment exists and every intermediate node is a keyed
record. -/
inductive ResolvesTo : Json → List String → Json → Prop
  | nil (v : Json) : ResolvesTo v [] v
  | cons {kvs : List (String × Json)} {k : String} {ks : List String} {v w : Json} :
      objGet kvs k = some v → ResolvesTo v ks w → ResolvesTo (Json.obj kvs) (k :: ks) w

/-- Display format templates appearing in `DATA_POINTS`, as an abstract
syntax: `plain` is the template made of one empty replacement field,
`fixed d sign` is the fixed-point template with `d` decimals, with a
leading plus-or-minus sign when `sign` is set. -/
inductive PyFormat where
  | plain
  | fixed (decimals : Nat) (forceSign : Bool)
  deriving DecidableEq

/-- Decimal digits of a natural number (fuel-based so that it reduces in
the kernel). -/
def natToDigits (fuel : Nat) (n : Nat) : List Char :=
  match fuel with
  | 0 => []
  | fuel + 1 =>
    if n = 0 then [] else natToDigits fuel (n / 10) ++ [Char.ofNat (48 + n % 10)]

/-- Decimal rendering of a natural number. -/
def natStr (n : Nat) : String :=
  if n = 0 then "0" else String.mk (natToDigits (n + 1) n)

/-- Decimal rendering of an integer. -/
def intStr : Int → String
  | .ofNat n => natStr n
  | .negSucc n => "-" ++ natStr (n + 1)

/-- Model of Python `str(x)` for values of this program's JSON universe.
Rationals with denominator 1 render as integers; other rationals render
as a fraction (an approximation of Python's float rendering — no claim
depends on the digits of a non-integer number's text). Containers render
recursively, comma-separated. -/
def pyStr : Json → String
  | .null => "None"
  | .bool b => if b then "True" else "False"
  | .num q => if q.den = 1 then intStr q.num else intStr q.num ++ "/" ++ natStr q.den
  | .str s => s
  | .arr xs => "[" ++ pyStrL xs ++ "]"
  | .obj kvs => "\x7b" ++ pyStrKV kvs ++ "\x7d"
where
  pyStrL : List Json → String
    | [] => ""
    | [x] => pyStr x
    | x :: xs => pyStr x ++ ", " ++ pyStrL xs
  pyStrKV : List (String × Json) → String
    | [] => ""
    | [(k, v)] => k ++ ": " ++ pyStr v
    | (k, v) :: kvs => k ++ ": " ++ pyStr v ++ ", " ++ pyStrKV kvs

/-- Left-pad a digit string with zeros to the given width. -/
def padZeros (width : Nat) (s : String) : String :=
  String.mk (List.replicate (width - s.length) '0') ++ s

/-- Fixed-point rendering of a rational with the given number of
decimals (rounding to nearest; the exact digits of rounded values are
not load-bearing for any claim). -/
def renderFixed (decimals : Nat) (forceSign : Bool) (q : ℚ) : String :=
  let scaled : Int := round (q * (10 ^ decimals : ℚ))
  let sign := if scaled < 0 then "-" else if forceSign then "+" else ""
  let a := scaled.natAbs
  if decimals = 0 then sign ++ natStr a
  else sign ++ natStr (a / 10 ^ decimals) ++ "." ++ padZeros decimals (natStr (a % 10 ^ decimals))

/-- Model of Python `fmt.format(value)` for the templates of
`DATA_POINTS`: the plain template stringifies any value; a fixed-point
template accepts numbers (and bools, which Python treats as integers)
and raises `ValueError`/`TypeError` on anything else (modelled as
`none`). -/
def pyFormat : PyFormat → Json → Option String
  | .plain, v => some (pyStr v)
  | .fixed d s, .num q => some (renderFixed d s q)
  | .fixed d s, .bool b => some (renderFixed d s (if b then 1 else 0))
  | .fixed _ _, _ => none

/-- The `DATA_POINTS` table of ogc_bridge.py (lines 64-86): key,
json_path, display name, format template, unit. The format strings of
the source map to `PyFormat` as: the braces-only template to `.plain`,
a fixed-point template with `d` decimals to `.fixed d false`, and its
plus-signed variant to `.fixed d true`. -/
def DATA_POINTS : List (String × String × String × PyFormat × String) := [
  ("ball_speed_mph", "us_customary_units.ball_speed_mph", "Ball Speed", .fixed 1 false, "mph"),
  ("launch_angle_v", "vertical_launch_angle_degrees", "Launch Angle", .fixed 1 false, "°"),
  ("launch_angle_h", "horizontal_launch_angle_degrees", "Horizontal", .fixed 1 false, "°"),
  ("total_spin", "total_spin_rpm", "Total Spin", .fixed 0 false, "rpm"),
  ("spin_axis", "spin_axis_degrees", "Spin Axis", .fixed 1 false, "°"),
  ("carry_yards", "open_golf_coach.us_customary_units.carry_distance_yards", "Carry", .fixed 1 false, "yds"),
  ("total_yards", "open_golf_coach.us_customary_units.total_distance_yards", "Total", .fixed 1 false, "yds"),
  ("offline_yards", "open_golf_coach.us_customary_units.offline_distance_yards", "Offline", .fixed 1 true, "yds"),
  ("peak_height_yards", "open_golf_coach.us_customary_units.peak_height_yards", "Peak Height", .fixed 1 false, "yds"),
  ("hang_time", "open_golf_coach.hang_time_seconds", "Hang Time", .fixed 2 false, "s"),
  ("backspin", "open_golf_coach.backspin_rpm", "Backspin", .fixed 0 false, "rpm"),
  ("sidespin", "open_golf_coach.sidespin_rpm", "Sidespin", .fixed 0 true, "rpm"),
  ("shot_name", "open_golf_coach.shot_name", "Shot Shape", .plain, ""),
  ("shot_rank", "open_golf_coach.shot_rank", "Grade", .plain, "")]

/-- Lookup of a key in `DATA_POINTS` (Python `key in DATA_POINTS` plus
the subsequent tuple unpacking). -/
def lookupDP : List (String × String × String × PyFormat × String) → String →
    Option (String × String × PyFormat × String)
  | [], _ => none
  | (k, rest) :: tl, key => if k = key then some rest else lookupDP tl key

/-- Model of `format_data_point` (ogc_bridge.py lines 112-135): unknown
key or absent value yields `None`; otherwise the value is formatted with
the metric's template, falling back to `str(value)` when the template
raises, and assembled with the label and unit per the flags. -/
def format_data_point (key : String) (data : Json) (show_label show_unit : Bool) :
    Option String :=
  match lookupDP DATA_POINTS key with
  | none => none
  | some (json_path, label, fmt, unit) =>
    let value := get_nested_value data json_path
    if value = Json.null then none
    else
      let formatted_value := (pyFormat fmt value).getD (pyStr value)
      let parts := (if show_label then [label ++ ":"] else []) ++ [formatted_value] ++
        (if show_unit && !(unit == "") then [unit] else [])
      some (" ".intercalate parts)

example : format_data_point "shot_name" (Json.obj [("open_golf_coach",
    Json.obj [("shot_name", Json.str "Fade")])]) true true = some "Shot Shape: Fade" := by decide

example : format_data_point "ball_speed_mph" (Json.obj [("us_customary_units",
    Json.obj [("ball_speed_mph", Json.str "fast")])]) true true =
    some "Ball Speed: fast mph" := by decide

/-- Model of a Python `queue.Queue`: `maxsize` as passed to the
constructor (`0` means unbounded) and the FIFO contents. -/
structure PyQueue (α : Type) where
  maxsize : Int
  items : List α
  deriving DecidableEq

/-- Python `Queue.put(item)` (blocking, no timeout): appends when the
queue is not full; on a full bounded queue the call blocks until a
consumer removes an item, modelled as `none` (no item is ever dropped
either way). -/
def PyQueue.put {α : Type} (q : PyQueue α) (x : α) : Option (PyQueue α) :=
  if 0 < q.maxsize ∧ q.maxsize ≤ (q.items.length : Int) then none
  else some { q with items := q.items ++ [x] }

/-- Sequence of blocking puts. -/
def PyQueue.putAll {α : Type} (q : PyQueue α) : List α → Option (PyQueue α)
  | [] => some q
  | x :: xs =>
    match q.put x with
    | some q' => q'.putAll xs
    | none => none

/-- The pipeline queue as constructed by `DataListener.__init__`
(ogc_bridge.py line 356): `queue.Queue()` with the default
`maxsize = 0`. -/
def DataListener.data_queue : PyQueue Json := { maxsize := 0, items := [] }

/-- The pipeline queue as constructed by `PluginState.__init__`
(obs_open_golf_coach.py line 71): `queue.Queue()` with the default
`maxsize = 0`. -/
def PluginState.data_queue : PyQueue Json := { maxsize := 0, items := [] }

/-- State of an `OBSManager` that is relevant to target creation: the
connection flag and the `created_sources` cache (a Python set, modelled
as a list of names). -/
structure OBSState where
  connected : Bool
  created_sources : List String
  deriving DecidableEq

/-- One remote call issued to the OBS WebSocket sink. -/
inductive SinkCall where
  | getInputSettings (name : String)
  | createInput (name : String)
  | setInputSettings (name : String)
  deriving DecidableEq

/-- Outcome of the sink's side of each possible call during one method
invocation: whether the existence probe finds the source, and whether
`create_input` / `set_input_settings` succeed (an exception is a
`false`). -/
structure SinkOracle where
  source_found : Bool
  create_ok : Bool
  update_ok : Bool

/-- Model of `OBSManager.get_source_name`. -/
def get_source_name (key : String) : String := "OGC_" ++ key

/-- Model of `OBSManager.source_exists` (ogc_obs_service.py lines
189-197): no call when disconnected; otherwise one probe whose outcome
the oracle decides. Returns the result together with the calls made. -/
def source_exists (o : SinkOracle) (st : OBSState) (source_name : String) :
    Bool × List SinkCall :=
  if st.connected then (o.source_found, [SinkCall.getInputSettings source_name])
  else (false, [])

/-- Model of `OBSManager.create_text_source` (ogc_obs_service.py lines
199-244; the copy in ogc_bridge.py lines 261-299 differs only in log
text and default initial text): returns success, the updated state, and
the sink calls issued, in order. -/
def create_text_source (o : SinkOracle) (st : OBSState) (key : String)
    (_initial_text : String) : Bool × OBSState × List SinkCall :=
  if st.connected then
    let source_name := get_source_name key
    if source_name ∈ st.created_sources then (true, st, [])
    else
      let probe := source_exists o st source_name
      if probe.1 then
        (true, { st with created_sources := source_name :: st.created_sources }, probe.2)
      else if o.create_ok then
        (true, { st with created_sources := source_name :: st.created_sources },
          probe.2 ++ [SinkCall.createInput source_name])
      else (false, st, probe.2 ++ [SinkCall.createInput source_name])
  else (false, st, [])

/-- Model of `OBSManager.update_text_source` (ogc_obs_service.py lines
246-266; the copy in ogc_bridge.py lines 301-319 is semantically
identical): attempts the direct update; on an exception it falls back to
`create_text_source` — but only when the source name is not already in
the `created_sources` cache. -/
def update_text_source (o : SinkOracle) (st : OBSState) (key : String)
    (text : String) : Bool × OBSState × List SinkCall :=
  if st.connected then
    let source_name := get_source_name key
    if o.update_ok then (true, st, [SinkCall.setInputSettings source_name])
    else if source_name ∈ st.created_sources then
      (false, st, [SinkCall.setInputSettings source_name])
    else
      let created := create_text_source o st key text
      (created.1, created.2.1, SinkCall.setInputSettings source_name :: created.2.2)
  else (false, st, [])

/-- Number of `create_input` calls in a trace. -/
def countCreates (calls : List SinkCall) : Nat :=
  (calls.filter fun c => match c with | SinkCall.createInput _ => true | _ => false).length

/-- Whitespace characters recognised by Python `str.strip()` /
`bytes.strip()` and skipped by `json.loads` (the subset that can occur
on this wire). -/
def isWsChar (c : Char) : Bool :=
  c = ' ' || c = '\n' || c = '\t' || c = '\r'

/-- Drop leading whitespace. -/
def dropWs : List Char → List Char
  | [] => []
  | c :: rest => if isWsChar c then dropWs rest else c :: rest

/-- Python `strip()`: drop whitespace from both ends. -/
def stripChars (cs : List Char) : List Char :=
  ((dropWs ((dropWs cs).reverse)).reverse)

/-- Decimal digit test. -/
def isDigitCh (c : Char) : Bool := '0' ≤ c && c ≤ '9'

/-- Consume a maximal digit run, returning the accumulated value, the
number of digits consumed, and the rest. -/
def parseDigits : List Char → Nat → Nat → (Nat × Nat × List Char)
  | [], acc, count => (acc, count, [])
  | c :: rest, acc, count =>
    if isDigitCh c then parseDigits rest (acc * 10 + (c.toNat - 48)) (count + 1)
    else (acc, count, c :: rest)

/-- Parse an unsigned JSON number (integer with optional decimal
fraction; exponents do not occur on this wire). -/
def parseNumber (cs : List Char) : Option (ℚ × List Char) :=
  match cs with
  | [] => none
  | c :: _ =>
    if isDigitCh c then
      let (n, _, rest) := parseDigits cs 0 0
      match rest with
      | '.' :: d :: rest2 =>
        if isDigitCh d then
          let (f, k, rest3) := parseDigits (d :: rest2) 0 0
          some ((n : ℚ) + (f : ℚ) / ((10 : ℚ) ^ k), rest3)
        else none
      | _ => some ((n : ℚ), rest)
    else none

/-- Expect the given literal characters at the head of the input. -/
def expectChars : List Char → List Char → Option (List Char)
  | [], rest => some rest
  | e :: es, c :: cs => if c = e then expectChars es cs else none
  | _ :: _, [] => none

/-- Parse the remainder of a JSON string after the opening quote.
Backslash escapes do not occur on this wire and fail the parse. -/
def parseStringBody : List Char → Option (List Char × List Char)
  | [] => none
  | c :: rest =>
    if c = '"' then some ([], rest)
    else if c = '\\' then none
    else
      match parseStringBody rest with
      | some (s, r) => some (c :: s, r)
      | none => none

mutual

/-- Recursive-descent JSON value parser (a model of Python
`json.loads`'s grammar on the subset of JSON this program's wire
carries), fuel-indexed so that it is structurally recursive and reduces
in the kernel. -/
def parseVal : Nat → List Char → Option (Json × List Char)
  | 0, _ => none
  | fuel + 1, cs =>
    match dropWs cs with
    | [] => none
    | c :: rest =>
      if c = '{' then parseObjBody fuel (dropWs rest)
      else if c = '[' then parseArrBody fuel (dropWs rest)
      else if c = '"' then
        match parseStringBody rest with
        | some (s, r) => some (Json.str (String.mk s), r)
        | none => none
      else if c = 't' then
        match expectChars ['r', 'u', 'e'] rest with
        | some r => some (Json.bool true, r)
        | none => none
      else if c = 'f' then
        match expectChars ['a', 'l', 's', 'e'] rest with
        | some r => some (Json.bool false, r)
        | none => none
      else if c = 'n' then
        match expectChars ['u', 'l', 'l'] rest with
        | some r => some (Json.null, r)
        | none => none
      else if c = '-' then
        match parseNumber rest with
        | some (q, r) => some (Json.num (-q), r)
        | none => none
      else
        match parseNumber (c :: rest) with
        | some (q, r) => some (Json.num q, r)
        | none => none

/-- Parse an object body positioned just after `\x7b` (whitespace
dropped). -/
def parseObjBody : Nat → List Char → Option (Json × List Char)
  | 0, _ => none
  | fuel + 1, cs =>
    match cs with
    | '}' :: rest => some (Json.obj [], rest)
    | _ =>
      match parseMember fuel cs with
      | some (kv, rest) => parseObjRest fuel [kv] (dropWs rest)
      | none => none

/-- Parse the continuation of an object body: a comma and another member,
or the closing brace. Accumulates members in order. -/
def parseObjRest : Nat → List (String × Json) → List Char → Option (Json × List Char)
  | 0, _, _ => none
  | fuel + 1, acc, cs =>
    match cs with
    | '}' :: rest => some (Json.obj acc.reverse, rest)
    | ',' :: rest =>
      match parseMember fuel (dropWs rest) with
      | some (kv, rest2) => parseObjRest fuel (kv :: acc) (dropWs rest2)
      | none => none
    | _ => none

/-- Parse one `"key": value` member. -/
def parseMember : Nat → List Char → Option ((String × Json) × List Char)
  | 0, _ => none
  | fuel + 1, cs =>
    match cs with
    | '"' :: rest =>
      match parseStringBody rest with
      | some (k, rest2) =>
        match dropWs rest2 with
        | ':' :: rest3 =>
          match parseVal fuel rest3 with
          | some (v, rest4) => some ((String.mk k, v), rest4)
          | none => none
        | _ => none
      | none => none
    | _ => none

/-- Parse an array body positioned just after `[` (whitespace
dropped). -/
def parseArrBody : Nat → List Char → Option (Json × List Char)
  | 0, _ => none
  | fuel + 1, cs =>
    match cs with
    | ']' :: rest => some (Json.arr [], rest)
    | _ =>
      match parseVal fuel cs with
      | some (v, rest) => parseArrRest fuel [v] (dropWs rest)
      | none => none

/-- Parse the continuation of an array body. -/
def parseArrRest : Nat → List Json → List Char → Option (Json × List Char)
  | 0, _, _ => none
  | fuel + 1, acc, cs =>
    match cs with
    | ']' :: rest => some (Json.arr acc.reverse, rest)
    | ',' :: rest =>
      match parseVal fuel (dropWs rest) with
      | some (v, rest2) => parseArrRest fuel (v :: acc) (dropWs rest2)
      | none => none
    | _ => none

end

/-- Model of Python `json.loads` on character lists: parse exactly one
value; anything but whitespace after it is an error (`Extra data`), as
is any parse failure. -/
def pyloads (cs : List Char) : Option Json :=
  match parseVal (cs.length + 1) cs with
  | some (v, rest) => if dropWs rest = [] then some v else none
  | none => none

example : pyloads "\x7b\"x\":1\x7d".toList = some (Json.obj [("x", Json.num 1)]) := by decide
example : pyloads "\x7b\"x\":1\x7d\n\x7b\"y\":2\x7d".toList = none := by decide
example : pyloads " \x7b\"x\":1\x7d ".toList = some (Json.obj [("x", Json.num 1)]) := by decide
example : pyloads "\x7b\"x\":1".toList = none := by decide

/-- Split a buffer at its first newline (`buffer.split('\n', 1)`); only
meaningful when a newline is present. -/
def splitAtNL : List Char → (List Char × List Char)
  | [] => ([], [])
  | c :: cs =>
    if c = '\n' then ([], cs)
    else
      match splitAtNL cs with
      | (a, b) => (c :: a, b)

/-- The newline-draining loop of `DataServer._handle_client`
(ogc_obs_service.py lines 372-382; `DataListener._handle_client` in
ogc_bridge.py lines 424-433 is identical): while the buffer contains a
newline, split off the first line, strip it, and parse it when
non-empty; malformed lines are logged and discarded. Returns the
remaining buffer and the messages decoded, in order. Fuel-indexed (the
buffer shrinks every iteration). -/
def drainNL : Nat → List Char → (List Char × List Json)
  | 0, buf => (buf, [])
  | fuel + 1, buf =>
    if buf.contains '\n' then
      let (line, rest) := splitAtNL buf
      let stripped := stripChars line
      let msgs :=
        match (if stripped.isEmpty then none else pyloads stripped) with
        | some j => [j]
        | none => []
      let (buf', more) := drainNL fuel rest
      (buf', msgs ++ more)
    else (buf, [])

/-- One `recv` step of the newline-delimited frame decoder: append the
chunk to the connection buffer and drain complete lines. The state is
the buffer plus all messages decoded so far. -/
def feedNL (st : List Char × List Json) (chunk : List Char) : List Char × List Json :=
  let buf := st.1 ++ chunk
  let d := drainNL (buf.length + 1) buf
  (d.1, st.2 ++ d.2)

/-- The two-mode parse loop of `handle_client`
(obs_open_golf_coach.py lines 324-364): while the buffer is non-empty,
strip it (clearing a whitespace-only buffer), try to parse the whole
stripped buffer as one JSON value (success clears the buffer), and on
failure fall back to splitting at the first newline, parsing that line
when possible; with no newline, wait for more data. Fuel-indexed. -/
def drainTM : Nat → List Char → (List Char × List Json)
  | 0, buf => (buf, [])
  | fuel + 1, buf =>
    if buf.isEmpty then (buf, [])
    else
      let text := stripChars buf
      if text.isEmpty then ([], [])
      else
        match pyloads text with
        | some j => ([], [j])
        | none =>
          if buf.contains '\n' then
            let (line, rest) := splitAtNL buf
            let stripped := stripChars line
            let msgs :=
              match (if stripped.isEmpty then none else pyloads stripped) with
              | some j => [j]
              | none => []
            let (buf', more) := drainTM fuel rest
            (buf', msgs ++ more)
          else (buf, [])

/-- One `recv` step of the two-mode frame decoder of `handle_client`. -/
def feedTM (st : List Char × List Json) (chunk : List Char) : List Char × List Json :=
  let buf := st.1 ++ chunk
  let d := drainTM (buf.length + 1) buf
  (d.1, st.2 ++ d.2)

/-- The byte stream of the framing-idempotence property:
two newline-terminated JSON objects. -/
def streamChars : List Char := "\x7b\"x\":1\x7d\n\x7b\"y\":2\x7d\n".toList

/-- The contiguous segment of `streamChars` from offset `a` (inclusive)
to offset `b` (exclusive). -/
def seg (a b : Nat) : List Char := (streamChars.drop a).take (b - a)

/-- The first message of the stream. -/
def msgX : Json := Json.obj [("x", Json.num 1)]

/-- The second message of the stream. -/
def msgY : Json := Json.obj [("y", Json.num 2)]

/-- Decoder state of the newline-delimited decoder at a chunk boundary,
as a function of the number of stream bytes consumed so far. -/
def invNL (n : Nat) : List Char × List Json :=
  if n < 8 then (seg 0 n, [])
  else if n < 16 then (seg 8 n, [msgX])
  else ([], [msgX, msgY])

/-- Decoder state of the two-mode decoder at a chunk boundary, as a
function of the number of stream bytes consumed so far. -/
def invTM (n : Nat) : List Char × List Json :=
  if n ≤ 6 then (seg 0 n, [])
  else if n = 7 then ([], [msgX])
  else if n ≤ 14 then (seg 8 n, [msgX])
  else ([], [msgX, msgY])

theorem stepNL : ∀ a : Nat, a < 17 → ∀ b : Nat, b < 17 → a ≤ b →
    feedNL (invNL a) (seg a b) = invNL b := by decide

theorem stepTM : ∀ a : Nat, a < 17 → ∀ b : Nat, b < 17 → a ≤ b →
    feedTM (invTM a) (seg a b) = invTM b := by decide

theorem streamChars_length : streamChars.length = 16 := by decide

theorem seg_to_end (b : Nat) : seg b 16 = streamChars.drop b := by
  unfold seg
  have h : (streamChars.drop b).length = 16 - b := by
    rw [List.length_drop, streamChars_length]
  rw [← h, List.take_length]

theorem seg_decomp {a : Nat} {c r : List Char} (ha : a ≤ 16)
    (h : c ++ r = seg a 16) :
    a + c.length ≤ 16 ∧ c = seg a (a + c.length) ∧ r = seg (a + c.length) 16 := by
  rw [seg_to_end] at h
  have hlen : c.length + r.length = 16 - a := by
    have hl := congrArg List.length h
    simp only [List.length_append, List.length_drop, streamChars_length] at hl
    exact hl
  have hb : a + c.length ≤ 16 := by omega
  refine ⟨hb, ?_, ?_⟩
  · have hseg : seg a (a + c.length) = (streamChars.drop a).take c.length := by
      unfold seg
      congr 1
      omega
    rw [hseg, ← h, List.take_left]
  · rw [seg_to_end]
    have hdd : streamChars.drop (a + c.length) = (streamChars.drop a).drop c.length := by
      rw [List.drop_drop, Nat.add_comm]
    rw [hdd, ← h, List.drop_left]

theorem foldFeedInv {St : Type} (feed : St → List Char → St) (inv : Nat → St)
    (hstep : ∀ a b : Nat, a ≤ b → b ≤ 16 → feed (inv a) (seg a b) = inv b) :
    ∀ (chunks : List (List Char)) (a : Nat), a ≤ 16 → chunks.flatten = seg a 16 →
      chunks.foldl feed (inv a) = inv 16 := by
  intro chunks
  induction chunks with
  | nil =>
    intro a ha hj
    have h16 : a = 16 := by
      have hl := congrArg List.length hj.symm
      simp only [seg_to_end, List.length_drop, streamChars_length, List.flatten_nil,
        List.length_nil] at hl
      omega
    simp [List.foldl_nil, h16]
  | cons c cs ih =>
    intro a ha hj
    rw [List.flatten_cons] at hj
    obtain ⟨hb, hc, hcs⟩ := seg_decomp ha hj
    rw [List.foldl_cons, hc, hstep a (a + c.length) (Nat.le_add_right a c.length) hb]
    exact ih (a + c.length) hb hcs

theorem convert_speed_entry (openapi ball : List (String × Json)) (q : ℚ) (imp : Bool)
    (hball : ballDataOf openapi = .ok ball)
    (hspeed : dictGetVal ball "Speed" = some (Json.num q))
    (himp : isImperialOf openapi = .ok imp) :
    convert_openapi_to_ogc openapi =
      .ok (("ball_speed_meters_per_second",
          Json.num (if imp then q * MPH_TO_MPS else q)) ::
        (copyField "VLA" "vertical_launch_angle_degrees" ball
          ++ copyField "HLA" "horizontal_launch_angle_degrees" ball
          ++ copyField "TotalSpin" "total_spin_rpm" ball
          ++ copyField "SpinAxis" "spin_axis_degrees" ball
          ++ copyField "BackSpin" "backspin_rpm" ball
          ++ copyField "SideSpin" "sidespin_rpm" ball)) := by
  have hsp : speedField imp ball =
      .ok [("ball_speed_meters_per_second", Json.num (if imp then q * MPH_TO_MPS else q))] := by
    cases imp <;> simp [speedField, hspeed, pyAsNum]
  simp [convert_openapi_to_ogc, hball, himp, hsp, Bind.bind, Except.bind]
  rfl

/-- C4: for every raw record whose `BallData` carries a numeric `Speed`,
an imperial units hint makes the converter store
`ball_speed_meters_per_second = Speed * 0.44704`, and a metric hint
passes the speed through unchanged (the conversion factor is exact over
the rational number model). -/
theorem claim_C4_unit_conversion (openapi ball : List (String × Json)) (q : ℚ) (imp : Bool)
    (hball : ballDataOf openapi = .ok ball)
    (hspeed : dictGetVal ball "Speed" = some (Json.num q))
    (himp : isImperialOf openapi = .ok imp) :
    ∃ rest, convert_openapi_to_ogc openapi =
      .ok (("ball_speed_meters_per_second",
        Json.num (if imp then q * MPH_TO_MPS else q)) :: rest) :=
  ⟨_, convert_speed_entry openapi ball q imp hball hspeed himp⟩

/-- Witness for C4: imperial input speed 100.0 converts to exactly
44.704 (so certainly within 1e-6), and a metric speed 100.0 passes
through unchanged. -/
theorem claim_C4_witness :
    (∃ rest, convert_openapi_to_ogc
        [("BallData", Json.obj [("Speed", Json.num 100)]), ("Units", Json.str "Yards")] =
      .ok (("ball_speed_meters_per_second", Json.num (100 * MPH_TO_MPS)) :: rest)) ∧
    |(100 : ℚ) * MPH_TO_MPS - 44704 / 1000| < 1 / 1000000 ∧
    (∃ rest, convert_openapi_to_ogc
        [("BallData", Json.obj [("Speed", Json.num 100)]), ("Units", Json.str "Metric")] =
      .ok (("ball_speed_meters_per_second", Json.num 100) :: rest)) :=
  ⟨claim_C4_unit_conversion _ [("Speed", Json.num 100)] 100 true
      (by decide) (by decide) (by decide),
    by norm_num [MPH_TO_MPS],
    claim_C4_unit_conversion _ [("Speed", Json.num 100)] 100 false
      (by decide) (by decide) (by decide)⟩

/-- C10: with `BallData.Speed` present, the units hint is imperial
exactly when the `Units` string contains `"Yards"` or `"MPH"` as a
substring; a missing `Units` field defaults to `"Yards"`, so the hint is
imperial and the speed is multiplied by 0.44704. -/
theorem claim_C10_units_hint (openapi ball : List (String × Json)) (q : ℚ)
    (hball : ballDataOf openapi = .ok ball)
    (hspeed : dictGetVal ball "Speed" = some (Json.num q)) :
    (∀ u : String, objGet openapi "Units" = some (Json.str u) →
      isImperialOf openapi = .ok (pyInStr "Yards" u || pyInStr "MPH" u)) ∧
    (objGet openapi "Units" = none →
      unitsOf openapi = Json.str "Yards" ∧ isImperialOf openapi = .ok true ∧
      ∃ rest, convert_openapi_to_ogc openapi =
        .ok (("ball_speed_meters_per_second", Json.num (q * MPH_TO_MPS)) :: rest)) := by
  constructor
  · intro u hu
    unfold isImperialOf unitsOf
    rw [hu]
    simp [pyIn]
    cases hY : pyInStr "Yards" u <;> simp [hY]
  · intro hu
    have hunits : unitsOf openapi = Json.str "Yards" := by
      unfold unitsOf; rw [hu]; rfl
    have himp : isImperialOf openapi = .ok true := by
      unfold isImperialOf
      rw [hunits]
      decide
    exact ⟨hunits, himp, _, convert_speed_entry openapi ball q true hball hspeed himp⟩

/-- Witness for C10: a metric `Units` string is not treated as imperial;
a record without `Units` is treated as imperial and converted. -/
theorem claim_C10_witness :
    isImperialOf [("BallData", Json.obj [("Speed", Json.num 50)]), ("Units", Json.str "Metric")] =
      .ok (pyInStr "Yards" "Metric" || pyInStr "MPH" "Metric") ∧
    (unitsOf [("BallData", Json.obj [("Speed", Json.num 50)])] = Json.str "Yards" ∧
      isImperialOf [("BallData", Json.obj [("Speed", Json.num 50)])] = .ok true ∧
      ∃ rest, convert_openapi_to_ogc [("BallData", Json.obj [("Speed", Json.num 50)])] =
        .ok (("ball_speed_meters_per_second", Json.num (50 * MPH_TO_MPS)) :: rest)) :=
  ⟨(claim_C10_units_hint _ [("Speed", Json.num 50)] 50 (by decide) (by decide)).1
      "Metric" (by decide),
    (claim_C10_units_hint _ [("Speed", Json.num 50)] 50 (by decide) (by decide)).2
      (by decide)⟩

theorem speedField_empty_iff (imp : Bool) (ball sp : List (String × Json))
    (h : speedField imp ball = .ok sp) :
    sp = [] ↔ dictGetVal ball "Speed" = none := by
  cases hd : dictGetVal ball "Speed" with
  | none =>
    simp [speedField, hd] at h
    simp [h.symm]
  | some v =>
    simp only [speedField, hd] at h
    cases imp with
    | false =>
      simp at h
      simp [h.symm]
    | true =>
      simp at h
      cases hn : pyAsNum v with
      | none => simp [hn] at h
      | some q =>
        simp [hn] at h
        simp [h.symm]

theorem copyField_empty_iff (src dst : String) (ball : List (String × Json)) :
    copyField src dst ball = [] ↔ dictGetVal ball src = none := by
  cases hd : dictGetVal ball src <;> simp [copyField, hd]

/-- C3 (amended): the conversion result is the empty canonical input —
which both callers treat as absent — exactly when none of the seven
recognised ball-flight fields is present (with a non-null value) in the
`BallData` sub-record; the mere presence of a `BallData` key does not
guarantee a canonical input. When the result is empty,
`OpenAPIService.process_shot` returns absent regardless of the
enrichment oracle. -/
theorem claim_C3_conversion_absent (openapi ball inp : List (String × Json)) (imp : Bool)
    (hball : ballDataOf openapi = .ok ball)
    (himp : isImperialOf openapi = .ok imp)
    (hc : convert_openapi_to_ogc openapi = .ok inp) :
    (inp = [] ↔ (dictGetVal ball "Speed" = none ∧ dictGetVal ball "VLA" = none ∧
      dictGetVal ball "HLA" = none ∧ dictGetVal ball "TotalSpin" = none ∧
      dictGetVal ball "SpinAxis" = none ∧ dictGetVal ball "BackSpin" = none ∧
      dictGetVal ball "SideSpin" = none)) ∧
    (inp = [] → ∀ enrich, OpenAPIService.process_shot enrich openapi = .ok none) := by
  cases hsp : speedField imp ball with
  | error e =>
    simp [convert_openapi_to_ogc, hball, himp, hsp, Bind.bind, Except.bind] at hc
  | ok sp =>
    have h2 : convert_openapi_to_ogc openapi = .ok (sp
        ++ copyField "VLA" "vertical_launch_angle_degrees" ball
        ++ copyField "HLA" "horizontal_launch_angle_degrees" ball
        ++ copyField "TotalSpin" "total_spin_rpm" ball
        ++ copyField "SpinAxis" "spin_axis_degrees" ball
        ++ copyField "BackSpin" "backspin_rpm" ball
        ++ copyField "SideSpin" "sidespin_rpm" ball) := by
      simp only [convert_openapi_to_ogc, hball, himp, hsp, Bind.bind, Except.bind,
        pure, Except.pure]
    have hinp : inp = sp ++ copyField "VLA" "vertical_launch_angle_degrees" ball
        ++ copyField "HLA" "horizontal_launch_angle_degrees" ball
        ++ copyField "TotalSpin" "total_spin_rpm" ball
        ++ copyField "SpinAxis" "spin_axis_degrees" ball
        ++ copyField "BackSpin" "backspin_rpm" ball
        ++ copyField "SideSpin" "sidespin_rpm" ball := by
      rw [h2] at hc
      exact (Except.ok.inj hc).symm
    constructor
    · rw [hinp]
      simp only [List.append_eq_nil]
      rw [speedField_empty_iff imp ball sp hsp]
      rw [copyField_empty_iff, copyField_empty_iff, copyField_empty_iff,
        copyField_empty_iff, copyField_empty_iff, copyField_empty_iff]
      tauto
    · intro he enrich
      simp [OpenAPIService.process_shot, hc, he, Bind.bind, Except.bind, pure, Except.pure]

/-- Counterexample for C3: the record with a present but empty
`BallData` sub-record contains a ball-flight sub-record, yet the
conversion yields the empty canonical input, and the service's
`process_shot` returns absent for it (with an enrichment oracle that
would succeed). -/
theorem claim_C3_counterexample :
    pyHasKey [("BallData", Json.obj [])] "BallData" = true ∧
    convert_openapi_to_ogc [("BallData", Json.obj [])] = .ok [] ∧
    OpenAPIService.process_shot (fun inp => some (Json.obj inp))
      [("BallData", Json.obj [])] = .ok none :=
  ⟨by decide, by decide, by decide⟩

/-- Witness for C3 (amended): a `BallData` with only a `VLA` field is
converted to a non-empty canonical input; an empty `BallData` is
treated as absent by the service. -/
theorem claim_C3_witness :
    (([("vertical_launch_angle_degrees", Json.num 12)] : List (String × Json)) = [] ↔
      (dictGetVal [("VLA", Json.num 12)] "Speed" = none ∧
        dictGetVal [("VLA", Json.num 12)] "VLA" = none ∧
        dictGetVal [("VLA", Json.num 12)] "HLA" = none ∧
        dictGetVal [("VLA", Json.num 12)] "TotalSpin" = none ∧
        dictGetVal [("VLA", Json.num 12)] "SpinAxis" = none ∧
        dictGetVal [("VLA", Json.num 12)] "BackSpin" = none ∧
        dictGetVal [("VLA", Json.num 12)] "SideSpin" = none)) :=
  (claim_C3_conversion_absent [("BallData", Json.obj [("VLA", Json.num 12)])]
    [("VLA", Json.num 12)] [("vertical_launch_angle_degrees", Json.num 12)] true
    (by decide) (by decide) (by decide)).1

/-- C1 (amended): with a failing enrichment call (the oracle that
returns absent, covering a library exception, a timeout, a refused
connection, and a decode failure), the bridge variant forwards the raw
un-enriched record downstream, and the OBS-plugin variant returns the
un-enriched canonical input for queueing — but the OpenAPI-service
variant returns absent from `process_shot`, so `_handle_client` drops
the shot instead of forwarding it. -/
theorem claim_C1_enrichment_failure :
    (∀ raw_data : List (String × Json),
      OGCBridge.process_shot_data (fun _ => none) raw_data = Json.obj raw_data) ∧
    (∀ (openapi inp : List (String × Json)), pyHasKey openapi "BallData" = true →
      convert_openapi_to_ogc openapi = .ok inp → inp ≠ [] →
      ObsPlugin.process_shot (fun _ => none) openapi = .ok (some (Json.obj inp))) ∧
    (∀ (openapi inp : List (String × Json)), convert_openapi_to_ogc openapi = .ok inp →
      OpenAPIService.handle_shot (fun _ => none) openapi = .ok none) := by
  refine ⟨?_, ?_, ?_⟩
  · intro raw_data
    unfold OGCBridge.process_shot_data OGCClient.process_shot
    split <;> rfl
  · intro openapi inp hBall hconv hne
    simp [ObsPlugin.process_shot, hBall, hconv, ObsPlugin.process_shot_calc, hne,
      Bind.bind, Except.bind, pure, Except.pure]
  · intro openapi inp hconv
    cases hi : inp.isEmpty <;>
      simp [OpenAPIService.handle_shot, OpenAPIService.process_shot, hconv, hi,
        Bind.bind, Except.bind, pure, Except.pure]

/-- Counterexample for C1: a well-formed shot whose enrichment fails is
dropped by the OpenAPI-service variant — `handle_shot` forwards nothing
— rather than being forwarded as the un-enriched canonical input. -/
theorem claim_C1_counterexample :
    convert_openapi_to_ogc [("BallData", Json.obj [("Speed", Json.num 100)])] =
      .ok [("ball_speed_meters_per_second", Json.num (100 * MPH_TO_MPS))] ∧
    OpenAPIService.handle_shot (fun _ => none)
      [("BallData", Json.obj [("Speed", Json.num 100)])] = .ok none :=
  ⟨rfl, rfl⟩

/-- Witness for C1 (amended), at a concrete shot record: the bridge
forwards the raw record, the plugin forwards the converted un-enriched
input, and the service drops the shot. -/
theorem claim_C1_witness :
    OGCBridge.process_shot_data (fun _ => none) [("total_spin_rpm", Json.num 2800)] =
      Json.obj [("total_spin_rpm", Json.num 2800)] ∧
    ObsPlugin.process_shot (fun _ => none) [("BallData", Json.obj [("VLA", Json.num 12)])] =
      .ok (some (Json.obj [("vertical_launch_angle_degrees", Json.num 12)])) ∧
    OpenAPIService.handle_shot (fun _ => none)
      [("BallData", Json.obj [("VLA", Json.num 12)])] = .ok none :=
  ⟨claim_C1_enrichment_failure.1 _,
    claim_C1_enrichment_failure.2.1 _ _ (by decide) (by decide) (by decide),
    claim_C1_enrichment_failure.2.2 _ [("vertical_launch_angle_degrees", Json.num 12)]
      (by decide)⟩

theorem nestedWalk_resolves : ∀ (ks : List String) (d : Json),
    (∀ w, ResolvesTo d ks w → nestedWalk d ks = w) ∧
    ((¬ ∃ w, ResolvesTo d ks w) → nestedWalk d ks = Json.null) := by
  intro ks
  induction ks with
  | nil =>
    intro d
    refine ⟨fun w h => ?_, fun h => absurd ⟨d, ResolvesTo.nil d⟩ h⟩
    cases h
    cases d <;> rfl
  | cons k ks ih =>
    intro d
    constructor
    · intro w h
      cases h with
      | cons hget hres =>
        simp only [nestedWalk, hget]
        exact (ih _).1 w hres
    · intro h
      match d with
      | .null => rfl
      | .bool _ => rfl
      | .num _ => rfl
      | .str _ => rfl
      | .arr _ => rfl
      | .obj kvs =>
        cases hget : objGet kvs k with
        | none => simp [nestedWalk, hget]
        | some v =>
          have hnv : ¬ ∃ w, ResolvesTo v ks w := by
            rintro ⟨w, hw⟩
            exact h ⟨w, ResolvesTo.cons hget hw⟩
          simp only [nestedWalk, hget]
          exact (ih v).2 hnv

/-- C5: for every record and dot-path, `get_nested_value` returns the
exact value reached by following the path segments whenever the
specification-side resolution relation holds, and `None` in every other
case; the Lean model is total, reflecting that the Python loop never
raises. -/
theorem claim_C5_nested_resolution (data : Json) (path : String) :
    (∀ w, ResolvesTo data (pathSegments path) w → get_nested_value data path = w) ∧
    ((¬ ∃ w, ResolvesTo data (pathSegments path) w) →
      get_nested_value data path = Json.null) := by
  unfold get_nested_value
  exact nestedWalk_resolves (pathSegments path) data

/-- Witness for C5, on the spec's own examples: path `"a.b.c"` resolves
to `5` over the record that contains it, and yields `None` over the
record `\x7b"a": \x7b"b": 1\x7d\x7d` where the path dead-ends. -/
theorem claim_C5_witness :
    get_nested_value
      (Json.obj [("a", Json.obj [("b", Json.obj [("c", Json.num 5)])])]) "a.b.c" =
      Json.num 5 ∧
    get_nested_value (Json.obj [("a", Json.obj [("b", Json.num 1)])]) "a.b.c" =
      Json.null := by
  constructor
  · refine (claim_C5_nested_resolution _ "a.b.c").1 (Json.num 5) ?_
    have hseg : pathSegments "a.b.c" = ["a", "b", "c"] := by decide
    rw [hseg]
    exact @ResolvesTo.cons [("a", Json.obj [("b", Json.obj [("c", Json.num 5)])])] "a"
      ["b", "c"] (Json.obj [("b", Json.obj [("c", Json.num 5)])]) (Json.num 5) (by decide)
      (@ResolvesTo.cons [("b", Json.obj [("c", Json.num 5)])] "b" ["c"]
        (Json.obj [("c", Json.num 5)]) (Json.num 5) (by decide)
        (@ResolvesTo.cons [("c", Json.num 5)] "c" [] (Json.num 5) (Json.num 5) (by decide)
          (ResolvesTo.nil (Json.num 5))))
  · refine (claim_C5_nested_resolution _ "a.b.c").2 ?_
    rintro ⟨w, hw⟩
    have hseg : pathSegments "a.b.c" = ["a", "b", "c"] := by decide
    rw [hseg] at hw
    cases hw with
    | cons hget1 hres1 =>
      simp only [objGet, if_pos rfl] at hget1
      cases hget1
      cases hres1 with
      | cons hget2 hres2 =>
        simp only [objGet, if_pos rfl] at hget2
        cases hget2
        cases hres2

/-- C9: formatting a data point is total (never raises): an unknown
key yields `None`, an absent metric value yields `None`, and when the
metric's format template is incompatible with the value's type the
output falls back to the value's plain string form, assembled with the
label and unit per the flags. -/
theorem claim_C9_format_fallback (key : String) (data : Json) (show_label show_unit : Bool) :
    (lookupDP DATA_POINTS key = none →
      format_data_point key data show_label show_unit = none) ∧
    (∀ json_path label fmt unit,
      lookupDP DATA_POINTS key = some (json_path, label, fmt, unit) →
      (get_nested_value data json_path = Json.null →
        format_data_point key data show_label show_unit = none) ∧
      (get_nested_value data json_path ≠ Json.null →
        pyFormat fmt (get_nested_value data json_path) = none →
        format_data_point key data show_label show_unit =
          some (" ".intercalate ((if show_label then [label ++ ":"] else []) ++
            [pyStr (get_nested_value data json_path)] ++
            (if show_unit && !(unit == "") then [unit] else []))))) := by
  constructor
  · intro h
    simp [format_data_point, h]
  · intro json_path label fmt unit hl
    constructor
    · intro hv
      simp [format_data_point, hl, hv]
    · intro hv hf
      simp [format_data_point, hl, hv, hf]

/-- Witness for C9: the numeric-format metric `ball_speed_mph` applied
to a record carrying a string value does not raise; it renders the
value's plain text form with label and unit. -/
theorem claim_C9_witness :
    format_data_point "ball_speed_mph"
      (Json.obj [("us_customary_units", Json.obj [("ball_speed_mph", Json.str "fast")])])
      true true = some "Ball Speed: fast mph" := by
  have h := ((claim_C9_format_fallback "ball_speed_mph"
      (Json.obj [("us_customary_units", Json.obj [("ball_speed_mph", Json.str "fast")])])
      true true).2 "us_customary_units.ball_speed_mph" "Ball Speed"
      (PyFormat.fixed 1 false) "mph" (by decide)).2 (by decide) (by decide)
  rw [h]
  decide

theorem create_success_caches (o : SinkOracle) (st : OBSState) (key txt : String)
    (h : (create_text_source o st key txt).1 = true) :
    st.connected = true ∧
    (create_text_source o st key txt).2.1.connected = true ∧
    get_source_name key ∈ (create_text_source o st key txt).2.1.created_sources ∧
    countCreates (create_text_source o st key txt).2.2 ≤ 1 := by
  cases hst : st.connected with
  | false =>
    exfalso
    unfold create_text_source at h
    simp [hst] at h
  | true =>
    unfold create_text_source source_exists at h ⊢
    simp only [hst, if_true] at h ⊢
    by_cases hm : get_source_name key ∈ st.created_sources
    · simp [hm, countCreates, hst]
    · simp only [hm, if_false] at h ⊢
      by_cases hf : o.source_found
      · simp [hf, countCreates, hst]
      · by_cases hk : o.create_ok
        · simp [hf, hk, countCreates, hst]
        · simp [hf, hk] at h

theorem create_cached_noop (o : SinkOracle) (st : OBSState) (key txt : String)
    (hc : st.connected = true) (hm : get_source_name key ∈ st.created_sources) :
    create_text_source o st key txt = (true, st, []) := by
  unfold create_text_source
  simp [hc, hm]

/-- C6: creating the target for the same key twice issues at most one
create call to the sink — once the first `create_text_source` call has
succeeded (caching the key), the second call returns `true` without
contacting the sink at all, for any sink behaviour on either call. -/
theorem claim_C6_idempotent_creation (o1 o2 : SinkOracle) (st : OBSState)
    (key txt1 txt2 : String)
    (h1 : (create_text_source o1 st key txt1).1 = true) :
    create_text_source o2 (create_text_source o1 st key txt1).2.1 key txt2 =
      (true, (create_text_source o1 st key txt1).2.1, []) ∧
    countCreates (create_text_source o1 st key txt1).2.2 +
      countCreates (create_text_source o2 (create_text_source o1 st key txt1).2.1 key txt2).2.2
      ≤ 1 := by
  obtain ⟨hst, hcon1, hmem, hcount⟩ := create_success_caches o1 st key txt1 h1
  have h2 := create_cached_noop o2 (create_text_source o1 st key txt1).2.1 key txt2 hcon1 hmem
  refine ⟨h2, ?_⟩
  rw [h2]
  simpa [countCreates] using hcount

/-- Witness for C6: a concrete first call that creates the source,
followed by a second call that succeeds with no sink traffic. -/
theorem claim_C6_witness :
    create_text_source ⟨true, true, true⟩
      (create_text_source ⟨false, true, true⟩ ⟨true, []⟩ "carry_yards" "Waiting...").2.1
      "carry_yards" "Waiting..." =
      (true, (create_text_source ⟨false, true, true⟩ ⟨true, []⟩ "carry_yards" "Waiting...").2.1,
        []) ∧
    countCreates (create_text_source ⟨false, true, true⟩ ⟨true, []⟩ "carry_yards"
        "Waiting...").2.2 +
      countCreates (create_text_source ⟨true, true, true⟩
        (create_text_source ⟨false, true, true⟩ ⟨true, []⟩ "carry_yards" "Waiting...").2.1
        "carry_yards" "Waiting...").2.2 ≤ 1 :=
  claim_C6_idempotent_creation ⟨false, true, true⟩ ⟨true, true, true⟩ ⟨true, []⟩
    "carry_yards" "Waiting..." "Waiting..." (by decide)

/-- C7 (amended): when the direct update call fails, the fallback to
`create_text_source` happens only for keys that are not already in the
`created_sources` cache (and then the update reports the creation's
result); for a cached key a failed update returns `false` without any
creation attempt. -/
theorem claim_C7_update_fallback (o : SinkOracle) (st : OBSState) (key text : String)
    (hconn : st.connected = true) (hup : o.update_ok = false) :
    (get_source_name key ∉ st.created_sources →
      update_text_source o st key text =
        ((create_text_source o st key text).1, (create_text_source o st key text).2.1,
          SinkCall.setInputSettings (get_source_name key) ::
            (create_text_source o st key text).2.2)) ∧
    (get_source_name key ∈ st.created_sources →
      update_text_source o st key text =
        (false, st, [SinkCall.setInputSettings (get_source_name key)])) := by
  constructor
  · intro hm
    unfold update_text_source
    simp [hconn, hup, hm]
  · intro hm
    unfold update_text_source
    simp [hconn, hup, hm]

/-- Counterexample for C7: with the key already cached and the direct
update failing, `update_text_source` returns `false` and never attempts
`create_text_source` — although that creation attempt would have
returned `true` (the cache short-circuit) and the claim therefore
requires the update to return `true`. -/
theorem claim_C7_counterexample :
    update_text_source ⟨false, true, false⟩ ⟨true, ["OGC_ball_speed_mph"]⟩
      "ball_speed_mph" "Ball Speed: 156.6 mph" =
      (false, ⟨true, ["OGC_ball_speed_mph"]⟩,
        [SinkCall.setInputSettings "OGC_ball_speed_mph"]) ∧
    (create_text_source ⟨false, true, false⟩ ⟨true, ["OGC_ball_speed_mph"]⟩
      "ball_speed_mph" "Ball Speed: 156.6 mph").1 = true :=
  ⟨by decide, by decide⟩

/-- Witness for C7 (amended): a concrete failed update over an empty
cache falls back to creation and reports its success. -/
theorem claim_C7_witness :
    update_text_source ⟨false, true, false⟩ ⟨true, []⟩ "hang_time" "Hang Time: 7.20 s" =
      ((create_text_source ⟨false, true, false⟩ ⟨true, []⟩ "hang_time" "Hang Time: 7.20 s").1,
        (create_text_source ⟨false, true, false⟩ ⟨true, []⟩ "hang_time"
          "Hang Time: 7.20 s").2.1,
        SinkCall.setInputSettings (get_source_name "hang_time") ::
          (create_text_source ⟨false, true, false⟩ ⟨true, []⟩ "hang_time"
            "Hang Time: 7.20 s").2.2) :=
  (claim_C7_update_fallback ⟨false, true, false⟩ ⟨true, []⟩ "hang_time" "Hang Time: 7.20 s"
    (by decide) (by decide)).1 (by decide)

theorem putAll_unbounded (xs : List Json) : ∀ q : PyQueue Json, q.maxsize = 0 →
    q.putAll xs = some { q with items := q.items ++ xs } := by
  induction xs with
  | nil =>
    intro q h
    simp [PyQueue.putAll]
  | cons x xs ih =>
    intro q h
    have hput : q.put x = some { q with items := q.items ++ [x] } := by
      simp [PyQueue.put, h]
    simp only [PyQueue.putAll, hput]
    rw [ih { q with items := q.items ++ [x] } h]
    simp

/-- C8 (amended): the pipeline queue is constructed with Python's
default `maxsize = 0` in both the bridge's `DataListener` and the
plugin's `PluginState`, i.e. it is unbounded: a producer's blocking
`put` always succeeds immediately (it can never find the queue full),
no item is ever dropped, and the queue grows without bound. -/
theorem claim_C8_unbounded_queue :
    DataListener.data_queue.maxsize = 0 ∧
    PluginState.data_queue.maxsize = 0 ∧
    (∀ xs : List Json, DataListener.data_queue.putAll xs =
      some { maxsize := 0, items := xs }) ∧
    (∀ (q : PyQueue Json) (x : Json), q.maxsize = 0 →
      q.put x = some { q with items := q.items ++ [x] }) := by
  refine ⟨rfl, rfl, ?_, ?_⟩
  · intro xs
    have h := putAll_unbounded xs DataListener.data_queue rfl
    simpa [DataListener.data_queue] using h
  · intro q x h
    simp [PyQueue.put, h]

/-- Witness for C8 (amended): three successive puts on the listener's
queue all succeed and keep every item. -/
theorem claim_C8_witness :
    DataListener.data_queue.putAll [Json.null, Json.num 1, Json.bool true] =
      some { maxsize := 0, items := [Json.null, Json.num 1, Json.bool true] } :=
  claim_C8_unbounded_queue.2.2.1 [Json.null, Json.num 1, Json.bool true]

/-- Counterexample for C8: there is no bound on the number of items the
pipeline queue can hold — for every claimed capacity, a list of puts
exceeds it without any put blocking or dropping, refuting "bounded
capacity with a drop policy". -/
theorem claim_C8_counterexample :
    ¬ ∃ cap : Nat, ∀ (xs : List Json) (q' : PyQueue Json),
      DataListener.data_queue.putAll xs = some q' → q'.items.length ≤ cap := by
  rintro ⟨cap, h⟩
  have hp := putAll_unbounded (List.replicate (cap + 1) Json.null) DataListener.data_queue rfl
  have hlen := h (List.replicate (cap + 1) Json.null) _ hp
  simp [DataListener.data_queue] at hlen

theorem stepNLle : ∀ a b : Nat, a ≤ b → b ≤ 16 → feedNL (invNL a) (seg a b) = invNL b :=
  fun a b hab hb => stepNL a (by omega) b (by omega) hab

theorem stepTMle : ∀ a b : Nat, a ≤ b → b ≤ 16 → feedTM (invTM a) (seg a b) = invTM b :=
  fun a b hab hb => stepTM a (by omega) b (by omega) hab

/-- C2: for every partition of the byte stream
`\x7b"x":1\x7d\n\x7b"y":2\x7d\n` into chunks (split at any byte offsets,
in order), both frame decoders — the newline-delimited decoder of
`DataServer._handle_client` / `DataListener._handle_client` and the
two-mode decoder of `handle_client` — emit exactly the two messages
`\x7b"x":1\x7d` then `\x7b"y":2\x7d`, independent of the chunk
boundaries. -/
theorem claim_C2_framing_idempotence (chunks : List (List Char))
    (h : chunks.flatten = streamChars) :
    (chunks.foldl feedNL ([], [])).2 = [msgX, msgY] ∧
    (chunks.foldl feedTM ([], [])).2 = [msgX, msgY] := by
  have h0 : streamChars = seg 0 16 := by decide
  have eNL0 : invNL 0 = (([] : List Char), ([] : List Json)) := by decide
  have eTM0 : invTM 0 = (([] : List Char), ([] : List Json)) := by decide
  have eNL16 : invNL 16 = (([] : List Char), [msgX, msgY]) := by decide
  have eTM16 : invTM 16 = (([] : List Char), [msgX, msgY]) := by decide
  constructor
  · have hres := foldFeedInv feedNL invNL stepNLle chunks 0 (by omega) (h.trans h0)
    rw [eNL0, eNL16] at hres
    rw [hres]
  · have hres := foldFeedInv feedTM invTM stepTMle chunks 0 (by omega) (h.trans h0)
    rw [eTM0, eTM16] at hres
    rw [hres]

/-- Witness for C2: the concrete partition splitting the stream at byte
offsets 3 and 9 (inside the first object and inside the second) yields
exactly the two messages on both decoders. -/
theorem claim_C2_witness :
    (([seg 0 3, seg 3 9, seg 9 16].foldl feedNL ([], [])).2 = [msgX, msgY] ∧
      ([seg 0 3, seg 3 9, seg 9 16].foldl feedTM ([], [])).2 = [msgX, msgY]) :=
  claim_C2_framing_idempotence [seg 0 3, seg 3 9, seg 9 16] (by decide)
